import Mathlib

set_option maxHeartbeats 1000000
set_option maxRecDepth 4000
set_option linter.unusedVariables false

/-!
Shallow embedding of the Universal Live Builder backend
(src/source-code/backend/src/main.rs).

External effects (podman invocations, host filesystem queries, file reads)
are modelled by an `Env` record: it fixes the exit status returned by each
external process and the host filesystem facts the program observes.  Every
function of the source that performs effects is embedded as a function
returning `M α = Except UlbError α × List Event`: the `Except` part is the
Rust `Result`, the event list is the ordered trace of external actions and
progress emissions the run performs.  `?`-propagation is `M.bind`; the
`scopeguard::defer!` block is `withDefer` (the finaliser's trace is appended
whether the body succeeded or failed, its result discarded, exactly as
`let _ = self.cleanup_container(&container)` does).  Log lines produced with
`error!` are modelled as `Event.logErr` so that the captured stderr text is
visible in the trace; `info!`/`debug!` diagnostics are not modelled.
Machine integers do not occur in the modelled region; progress fractions
(Rust `f32`, only ever the literals `0.0` and `1.0`) are modelled as `ℚ`.
-/

/-- Mirrors `enum UlbError` (main.rs lines 16-31).  The Rust variant
`UlbError::Io` is named `IoError` here; `Toml` and `Json` never occur in the
modelled region (they arise only while loading the config file). -/
inductive UlbError where
  | IoError (msg : String)
  | Command (stage : String) (message : String)
  | UnsupportedDistro (distro : String)
  | Validation (msg : String)
deriving DecidableEq

/-- One observable action of a run: a progress emission (with the
`json_output` flag it was printed under), one of the podman invocations, or
an `error!` log line. -/
inductive Event where
  | progress (stage : String) (fraction : ℚ) (json : Bool)
  | pull (image : String)
  | create (name image : String)
  | start (name : String)
  | stop (name : String)
  | rm (name : String)
  | exec (container cmd : String)
  | cp (src container dest : String)
  | logErr (text : String)
deriving DecidableEq

deriving instance DecidableEq for Except

/-- Result-with-trace monad: the `Except` component is the Rust `Result`,
the list is the ordered trace of `Event`s performed before returning. -/
abbrev M (α : Type) : Type := Except UlbError α × List Event

def M.pure {α : Type} (a : α) : M α := (Except.ok a, [])

/-- Sequencing with `?`-propagation: on error the continuation never runs
and contributes no events. -/
def M.bind {α β : Type} (x : M α) (f : α → M β) : M β :=
  match x with
  | (Except.error e, t) => (Except.error e, t)
  | (Except.ok a, t) => ((f a).1, t ++ (f a).2)

def M.throw {α : Type} (e : UlbError) : M α := (Except.error e, [])

def M.tell (ev : Event) : M Unit := (Except.ok (), [ev])

/-- Mirrors `scopeguard::defer!`: the finaliser runs after the body on every
path, its result is discarded (`let _ = ...`). -/
def withDefer {α : Type} (body : M α) (fin : M Unit) : M α :=
  (body.1, body.2 ++ fin.2)

/-- Characters after the last `'.'` of a list, if any. -/
def afterLastDot : List Char → Option (List Char)
  | [] => none
  | c :: rest =>
    match afterLastDot rest with
    | some e => some e
    | none => if c = '.' then some rest else none

/-- Mirrors Rust `Path::extension` for a plain file name: the portion after
the last dot, except that a dot in first position alone never starts an
extension (`".sh"` has no extension). -/
def rustExtension (name : String) : Option String :=
  match name.data with
  | [] => none
  | _ :: rest =>
    match afterLastDot rest with
    | some e => some (String.mk e)
    | none => none

def splitLinesAux : List Char → List Char → List (List Char)
  | [], acc => [acc.reverse]
  | c :: rest, acc =>
    if c = '\n' then acc.reverse :: splitLinesAux rest []
    else splitLinesAux rest (c :: acc)

def stripCR (l : List Char) : List Char :=
  if l.getLast? = some '\r' then l.dropLast else l

/-- Mirrors Rust `str::lines`: split on `'\n'`, drop a final empty segment
produced by a trailing newline, strip a trailing `'\r'` from each line. -/
def rustLines (s : String) : List String :=
  let parts := splitLinesAux s.data []
  let parts2 := if parts.getLast? = some [] then parts.dropLast else parts
  parts2.map (fun l => String.mk (stripCR l))

def isWS (c : Char) : Bool := c == ' ' || c == '\t' || c == '\n' || c == '\r'

/-- Mirrors Rust `str::trim` for the ASCII whitespace that can occur here. -/
def rustTrim (s : String) : String :=
  String.mk (((s.data.dropWhile isWS).reverse.dropWhile isWS).reverse)

def joinWith (sep : String) : List String → String
  | [] => ""
  | [x] => x
  | x :: y :: rest => x ++ sep ++ joinWith sep (y :: rest)

/-- `packages.lines().collect::<Vec<_>>().join(" ")` followed by the
`packages.trim()` applied at the `format!` call sites. -/
def joinedPackages (contents : String) : String :=
  rustTrim (joinWith " " (rustLines contents))

/-- Outcome of launching one external process: `spawnOk = false` models the
`Io` error from `status()?`/`output()?` (the process could not be run);
`exitOk` is `status.success()` when it did run. -/
structure CmdOutcome where
  spawnOk : Bool
  exitOk : Bool
deriving DecidableEq

/-- Mirrors `struct Config` (main.rs lines 33-40). -/
structure Config where
  distro : String
  image_name : String
  installer : Option String
  architecture : Option String
deriving DecidableEq

/-- The external world a run observes: exit statuses of the podman
invocations (`execRes`/`cpRes` are keyed by command text resp. source path),
captured stderr text, and the host filesystem facts the program reads. -/
structure Env where
  pullRes : CmdOutcome
  createRes : CmdOutcome
  startRes : CmdOutcome
  stopRes : CmdOutcome
  rmRes : CmdOutcome
  execRes : String → CmdOutcome
  execStderrText : String → String
  cpRes : String → CmdOutcome
  scriptsDirExists : Bool
  scriptEntries : List String
  filesDirExists : Bool
  installFilesDirExists : Bool
  reposDirExists : Bool
  removeListExists : Bool
  removeListContents : String
  packageListContents : String
  pkgListExists : Bool
  pkgListLen : Nat
  pkgMetaOk : Bool
  hostFsOk : Bool
  baseDirPath : String

/-- Mirrors `validate_config` (main.rs lines 86-98); note the short-circuit
`!exists || metadata()?.len() == 0`: metadata is only consulted when the
file exists. -/
def validate_config (env : Env) (config : Config) : Except UlbError Unit :=
  if ¬ (config.distro = "fedora" ∨ config.distro = "debian") then
    Except.error (UlbError.Validation ("Unsupported distro: " ++ config.distro))
  else if config.image_name = "" then
    Except.error (UlbError.Validation "image_name cannot be empty")
  else if env.pkgListExists = false then
    Except.error (UlbError.Validation "package-lists file is missing or empty")
  else if env.pkgMetaOk = false then
    Except.error (UlbError.IoError "failed to read package-lists metadata")
  else if env.pkgListLen = 0 then
    Except.error (UlbError.Validation "package-lists file is missing or empty")
  else Except.ok ()

/-- Mirrors `struct BaseBackend` (main.rs lines 140-148). -/
structure BaseBackend where
  config : Config
  base_dir : String
  cache_dir : String
  release_dir : String
  container_image : String
  container_name : String
deriving DecidableEq

/-- Mirrors `BaseBackend::new` (main.rs lines 151-169): canonicalizes the
base directory and creates the cache/release directories on the host
(modelled by `hostFsOk`), then derives the image and container names. -/
def BaseBackend.new (env : Env) (config : Config) (distro default_arch image_prefix : String) :
    Except UlbError BaseBackend :=
  if env.hostFsOk then
    let base_dir := env.baseDirPath
    let arch := config.architecture.getD default_arch
    Except.ok
      { config := config
        base_dir := base_dir
        cache_dir := base_dir ++ "/build/.cache"
        release_dir := base_dir ++ "/build/release"
        container_image := image_prefix ++ ":latest-" ++ arch
        container_name := "ulb-" ++ distro ++ "-builder" }
  else Except.error (UlbError.IoError "filesystem operation failed")

/-- `Command::...::status()?`: records the invocation event, raises the
modelled `Io` error when the process could not be spawned, and otherwise
returns `status.success()`. -/
def runStatus (res : CmdOutcome) (ev : Event) : M Bool :=
  if res.spawnOk then (Except.ok res.exitOk, [ev])
  else (Except.error (UlbError.IoError "failed to spawn process"), [ev])

/-- Mirrors `BaseBackend::emit_progress` (main.rs lines 238-249): one line
per call, JSON object `{stage, progress}` when `json_output` is set. -/
def emit_progress (stage : String) (fraction : ℚ) (json_output : Bool) : M Unit :=
  M.tell (Event.progress stage fraction json_output)

/-- Mirrors `BaseBackend::setup_container` (main.rs lines 171-197): pull and
create failures are turned into `UlbError::Command` errors; the exit status
of `podman start` is read but never checked (only a spawn failure
propagates, through `?`). -/
def setup_container (env : Env) (self : BaseBackend) (json_output : Bool) : M String :=
  M.bind (emit_progress "setup_container" 0 json_output) (fun _ =>
    M.bind (runStatus env.pullRes (Event.pull self.container_image)) (fun st =>
      if st then
        M.bind (runStatus env.createRes (Event.create self.container_name self.container_image))
          (fun st2 =>
            if st2 then
              M.bind (runStatus env.startRes (Event.start self.container_name)) (fun _ =>
                M.bind (emit_progress "setup_container" 1 json_output) (fun _ =>
                  M.pure self.container_name))
            else M.throw (UlbError.Command "setup_container" "Podman create failed"))
      else M.throw (UlbError.Command "setup_container" "Podman pull failed")))

/-- Mirrors `podman_exec` (main.rs lines 466-483): runs each command in
order; the first non-zero exit aborts with `UlbError::Command` after logging
the command and its captured stderr with `error!`. -/
def podman_exec (env : Env) (container : String) (cmds : List String) (stage : String) : M Unit :=
  match cmds with
  | [] => M.pure ()
  | cmd :: rest =>
    if (env.execRes cmd).spawnOk then
      if (env.execRes cmd).exitOk then
        M.bind (M.tell (Event.exec container cmd)) (fun _ => podman_exec env container rest stage)
      else
        (Except.error (UlbError.Command stage ("Command failed: " ++ cmd)),
         [Event.exec container cmd,
          Event.logErr ("Command failed in " ++ stage ++ ": " ++ cmd ++ " - stderr: "
            ++ env.execStderrText cmd)])
    else
      (Except.error (UlbError.IoError "failed to run podman exec"), [Event.exec container cmd])

/-- Mirrors `podman_cp` (main.rs lines 485-496). -/
def podman_cp (env : Env) (src container dest : String) : M Unit :=
  M.bind (runStatus (env.cpRes src) (Event.cp src container dest)) (fun ok =>
    if ok then M.pure () else M.throw (UlbError.Command "podman_cp" "Podman cp failed"))

/-- Common shape of every stage body: entry progress `0.0`, the stage's
work, exit progress `1.0` (the exit emission is skipped when the work
errors, through `?`). -/
def stageWrap (stage : String) (json_output : Bool) (mid : M Unit) : M Unit :=
  M.bind (emit_progress stage 0 json_output) (fun _ =>
    M.bind mid (fun _ => emit_progress stage 1 json_output))

/-- The per-entry loop body of `run_scripts` (main.rs lines 205-213):
entries whose extension is not `sh` are skipped; a script is copied to
`/tmp` and then executed-and-removed by one remote shell command. -/
def runScriptEntries (env : Env) (self : BaseBackend) (container : String) :
    List String → M Unit
  | [] => M.pure ()
  | name :: rest =>
    if rustExtension name = some "sh" then
      M.bind (podman_cp env (self.base_dir ++ "/scripts/" ++ name) container ("/tmp/" ++ name))
        (fun _ =>
          M.bind (podman_exec env container
              ["bash /tmp/" ++ name ++ " && rm /tmp/" ++ name] "run_scripts")
            (fun _ => runScriptEntries env self container rest))
    else runScriptEntries env self container rest

/-- Lexicographic comparison of character lists by code point; on UTF-8
data this coincides with the byte order Rust's `OsString` ordering uses. -/
def charListLe : List Char → List Char → Bool
  | [], _ => true
  | _ :: _, [] => false
  | a :: as, b :: bs =>
    if a.toNat < b.toNat then true
    else if b.toNat < a.toNat then false
    else charListLe as bs

/-- Lexicographic (byte) order on file names, as used by
`entries.sort_by_key(|e| e.file_name())`. -/
def fileNameLe (a b : String) : Bool := charListLe a.data b.data

/-- Mirrors `entries.sort_by_key(|e| e.file_name())`: a sort of the
directory entries by file name in lexicographic order. -/
def sortStrings (l : List String) : List String :=
  List.insertionSort (fun a b => fileNameLe a b = true) l

/-- Mirrors `BaseBackend::run_scripts` (main.rs lines 199-217). -/
def BaseBackend.run_scripts (env : Env) (self : BaseBackend) (container : String)
    (json_output : Bool) : M Unit :=
  stageWrap "run_scripts" json_output
    (if env.scriptsDirExists then runScriptEntries env self container (sortStrings env.scriptEntries)
     else M.pure ())

/-- Mirrors `BaseBackend::copy_files` (main.rs lines 219-236). -/
def BaseBackend.copy_files (env : Env) (self : BaseBackend) (container : String)
    (json_output : Bool) : M Unit :=
  stageWrap "copy_files" json_output
    (M.bind
      (if env.filesDirExists then
        podman_exec env container ["cp -r /workspace/files/* /workspace/build/rootfs"] "copy_files"
       else M.pure ())
      (fun _ =>
        if env.installFilesDirExists then
          M.bind (podman_exec env container
              ["mkdir -p /workspace/build/rootfs/opt/install-files"] "copy_files")
            (fun _ => podman_exec env container
              ["cp -r /workspace/install-files/* /workspace/build/rootfs/opt/install-files"]
              "copy_files")
        else M.pure ()))

/-- Mirrors `BaseBackend::cleanup_container` (main.rs lines 251-256): stop
then remove, both statuses discarded (`let _ = ...`), always returns Ok. -/
def BaseBackend.cleanup_container (self : BaseBackend) (container : String) : M Unit :=
  (Except.ok (), [Event.stop container, Event.rm container])

/-- Host-side `fs::create_dir_all` inside `build_rootfs` (modelled by the
same `hostFsOk` flag as in `BaseBackend::new`). -/
def create_dir_all (env : Env) : M Unit :=
  if env.hostFsOk then M.pure () else M.throw (UlbError.IoError "create_dir_all failed")

/-- Mirrors `struct FedoraBackend`. -/
structure FedoraBackend where
  base : BaseBackend
deriving DecidableEq

def FedoraBackend.new (env : Env) (config : Config) : Except UlbError FedoraBackend :=
  (BaseBackend.new env config "fedora" "x86_64" "fedora").map FedoraBackend.mk

/-- Mirrors `FedoraBackend::install_packages` (main.rs lines 292-304). -/
def FedoraBackend.install_packages (env : Env) (self : FedoraBackend) (container : String)
    (json_output : Bool) : M Unit :=
  stageWrap "install_packages" json_output
    (M.bind (podman_exec env container ["dnf makecache --cachedir=/cache/dnf"] "install_packages")
      (fun _ =>
        podman_exec env container
          ["dnf --cachedir=/cache/dnf install -y " ++ joinedPackages env.packageListContents]
          "install_packages"))

/-- Mirrors `FedoraBackend::remove_packages` (main.rs lines 306-318). -/
def FedoraBackend.remove_packages (env : Env) (self : FedoraBackend) (container : String)
    (json_output : Bool) : M Unit :=
  stageWrap "remove_packages" json_output
    (if env.removeListExists then
      podman_exec env container ["dnf remove -y " ++ joinedPackages env.removeListContents]
        "remove_packages"
     else M.pure ())

/-- Mirrors `FedoraBackend::build_rootfs` (main.rs lines 320-328). -/
def FedoraBackend.build_rootfs (env : Env) (self : FedoraBackend) (container : String)
    (json_output : Bool) : M Unit :=
  stageWrap "build_rootfs" json_output
    (M.bind (create_dir_all env)
      (fun _ =>
        podman_exec env container
          ["dnf install --installroot /workspace/build/rootfs --releasever=latest -y @core"]
          "build_rootfs"))

/-- Mirrors `FedoraBackend::install_installer` (main.rs lines 330-338). -/
def FedoraBackend.install_installer (env : Env) (self : FedoraBackend) (container : String)
    (json_output : Bool) : M Unit :=
  stageWrap "install_installer" json_output
    (match self.base.config.installer with
     | some installer => podman_exec env container ["dnf install -y " ++ installer] "install_installer"
     | none => M.pure ())

/-- Mirrors `FedoraBackend::install_custom_packages` (main.rs lines 340-351). -/
def FedoraBackend.install_custom_packages (env : Env) (self : FedoraBackend) (container : String)
    (json_output : Bool) : M Unit :=
  stageWrap "install_custom_packages" json_output
    (if env.reposDirExists then
      M.bind (podman_exec env container ["cp /workspace/repos/* /etc/yum.repos.d/"]
          "install_custom_packages")
        (fun _ => podman_exec env container ["dnf update -y"] "install_custom_packages")
     else M.pure ())

def boolString (b : Bool) : String := if b then "true" else "false"

/-- Mirrors `FedoraBackend::create_iso` (main.rs lines 353-361). -/
def FedoraBackend.create_iso (env : Env) (self : FedoraBackend) (container : String)
    (release json_output : Bool) : M Unit :=
  stageWrap "create_iso" json_output
    (podman_exec env container
      ["lorax -p " ++ self.base.config.image_name
        ++ " -v latest -r latest --rootfs-size=3 --buildarch="
        ++ self.base.config.architecture.getD "x86_64"
        ++ " -s http://download.fedoraproject.org/pub/fedora/linux/releases/latest/Everything/"
        ++ self.base.config.architecture.getD "x86_64"
        ++ "/os/ --isfinal=" ++ boolString release
        ++ " /workspace/build/release/" ++ (if release then "release.iso" else "debug.iso")]
      "create_iso")

/-- Mirrors `struct DebianBackend`. -/
structure DebianBackend where
  base : BaseBackend
deriving DecidableEq

def DebianBackend.new (env : Env) (config : Config) : Except UlbError DebianBackend :=
  (BaseBackend.new env config "debian" "amd64" "debian").map DebianBackend.mk

/-- Mirrors `DebianBackend::install_packages` (main.rs lines 381-392): one
`podman_exec` call carrying both the index refresh and the install. -/
def DebianBackend.install_packages (env : Env) (self : DebianBackend) (container : String)
    (json_output : Bool) : M Unit :=
  stageWrap "install_packages" json_output
    (podman_exec env container
      ["apt update",
       "DEBIAN_FRONTEND=noninteractive apt install -y " ++ joinedPackages env.packageListContents]
      "install_packages")

/-- Mirrors `DebianBackend::remove_packages` (main.rs lines 394-406). -/
def DebianBackend.remove_packages (env : Env) (self : DebianBackend) (container : String)
    (json_output : Bool) : M Unit :=
  stageWrap "remove_packages" json_output
    (if env.removeListExists then
      podman_exec env container
        ["DEBIAN_FRONTEND=noninteractive apt remove -y " ++ joinedPackages env.removeListContents]
        "remove_packages"
     else M.pure ())

/-- Mirrors `DebianBackend::build_rootfs` (main.rs lines 408-417). -/
def DebianBackend.build_rootfs (env : Env) (self : DebianBackend) (container : String)
    (json_output : Bool) : M Unit :=
  stageWrap "build_rootfs" json_output
    (M.bind (create_dir_all env)
      (fun _ =>
        podman_exec env container
          ["debootstrap --arch=" ++ self.base.config.architecture.getD "amd64"
            ++ " stable /workspace/build/rootfs http://deb.debian.org/debian"]
          "build_rootfs"))

/-- Mirrors `DebianBackend::install_installer` (main.rs lines 419-427). -/
def DebianBackend.install_installer (env : Env) (self : DebianBackend) (container : String)
    (json_output : Bool) : M Unit :=
  stageWrap "install_installer" json_output
    (match self.base.config.installer with
     | some installer =>
        podman_exec env container
          ["DEBIAN_FRONTEND=noninteractive apt install -y " ++ installer] "install_installer"
     | none => M.pure ())

/-- Mirrors `DebianBackend::install_custom_packages` (main.rs lines 429-440). -/
def DebianBackend.install_custom_packages (env : Env) (self : DebianBackend) (container : String)
    (json_output : Bool) : M Unit :=
  stageWrap "install_custom_packages" json_output
    (if env.reposDirExists then
      M.bind (podman_exec env container ["cp /workspace/repos/* /etc/apt/sources.list.d/"]
          "install_custom_packages")
        (fun _ => podman_exec env container ["apt update"] "install_custom_packages")
     else M.pure ())

/-- Mirrors `DebianBackend::create_iso` (main.rs lines 442-449). -/
def DebianBackend.create_iso (env : Env) (self : DebianBackend) (container : String)
    (release json_output : Bool) : M Unit :=
  stageWrap "create_iso" json_output
    (podman_exec env container
      ["xorriso -as mkisofs -o /workspace/build/release/"
        ++ (if release then "release.iso" else "debug.iso") ++ " /workspace/build/rootfs"]
      "create_iso")

/-- The `Box<dyn DistroBackend>` of the source as a tagged variant. -/
inductive AnyBackend where
  | fedora (b : FedoraBackend)
  | debian (b : DebianBackend)

def AnyBackend.base : AnyBackend → BaseBackend
  | AnyBackend.fedora b => b.base
  | AnyBackend.debian b => b.base

def AnyBackend.install_packages (bk : AnyBackend) (env : Env) (container : String)
    (json_output : Bool) : M Unit :=
  match bk with
  | AnyBackend.fedora b => FedoraBackend.install_packages env b container json_output
  | AnyBackend.debian b => DebianBackend.install_packages env b container json_output

def AnyBackend.remove_packages (bk : AnyBackend) (env : Env) (container : String)
    (json_output : Bool) : M Unit :=
  match bk with
  | AnyBackend.fedora b => FedoraBackend.remove_packages env b container json_output
  | AnyBackend.debian b => DebianBackend.remove_packages env b container json_output

def AnyBackend.build_rootfs (bk : AnyBackend) (env : Env) (container : String)
    (json_output : Bool) : M Unit :=
  match bk with
  | AnyBackend.fedora b => FedoraBackend.build_rootfs env b container json_output
  | AnyBackend.debian b => DebianBackend.build_rootfs env b container json_output

def AnyBackend.install_installer (bk : AnyBackend) (env : Env) (container : String)
    (json_output : Bool) : M Unit :=
  match bk with
  | AnyBackend.fedora b => FedoraBackend.install_installer env b container json_output
  | AnyBackend.debian b => DebianBackend.install_installer env b container json_output

def AnyBackend.install_custom_packages (bk : AnyBackend) (env : Env) (container : String)
    (json_output : Bool) : M Unit :=
  match bk with
  | AnyBackend.fedora b => FedoraBackend.install_custom_packages env b container json_output
  | AnyBackend.debian b => DebianBackend.install_custom_packages env b container json_output

def AnyBackend.create_iso (bk : AnyBackend) (env : Env) (container : String)
    (release json_output : Bool) : M Unit :=
  match bk with
  | AnyBackend.fedora b => FedoraBackend.create_iso env b container release json_output
  | AnyBackend.debian b => DebianBackend.create_iso env b container release json_output

/-- The stage calls of `build_iso_pipeline` after the container is up
(main.rs lines 263-271). -/
def pipelineBody (env : Env) (bk : AnyBackend) (container : String)
    (release json_output : Bool) : M Unit :=
  M.bind (AnyBackend.install_packages bk env container json_output) (fun _ =>
    M.bind (AnyBackend.remove_packages bk env container json_output) (fun _ =>
      M.bind (BaseBackend.run_scripts env (AnyBackend.base bk) container json_output) (fun _ =>
        M.bind (AnyBackend.build_rootfs bk env container json_output) (fun _ =>
          M.bind (BaseBackend.copy_files env (AnyBackend.base bk) container json_output) (fun _ =>
            M.bind (AnyBackend.install_installer bk env container json_output) (fun _ =>
              M.bind (AnyBackend.install_custom_packages bk env container json_output) (fun _ =>
                AnyBackend.create_iso bk env container release json_output)))))))

/-- Mirrors `BaseBackend::build_iso_pipeline` (main.rs lines 258-272): the
`defer!` registering `cleanup_container` is placed after `setup_container`
has already succeeded, so a provisioning failure returns before any
finaliser exists. -/
def build_iso_pipeline (env : Env) (bk : AnyBackend) (release json_output : Bool) : M Unit :=
  M.bind (setup_container env (AnyBackend.base bk) json_output) (fun container =>
    withDefer (pipelineBody env bk container release json_output)
      (BaseBackend.cleanup_container (AnyBackend.base bk) container))

/-- Mirrors `create_distro_backend` (main.rs lines 452-458). -/
def create_distro_backend (env : Env) (config : Config) : Except UlbError AnyBackend :=
  if config.distro = "fedora" then (FedoraBackend.new env config).map AnyBackend.fedora
  else if config.distro = "debian" then (DebianBackend.new env config).map AnyBackend.debian
  else Except.error (UlbError.UnsupportedDistro config.distro)

/-- Mirrors `<dyn DistroBackend>::build_iso` (main.rs lines 460-464). -/
def build_iso (env : Env) (bk : AnyBackend) (release json_output : Bool) : M Unit :=
  build_iso_pipeline env bk release json_output

/-- The `Commands::Build` path of `main` (main.rs lines 74-79), starting
from the already-parsed config: validation, backend construction, then the
pipeline.  Config-file loading and TOML parsing are outside the modelled
region (per the spec they happen before the core runs). -/
def mainBuild (env : Env) (config : Config) (release json_output : Bool) : M Unit :=
  match validate_config env config with
  | Except.error e => (Except.error e, [])
  | Except.ok _ =>
    match create_distro_backend env config with
    | Except.error e => (Except.error e, [])
    | Except.ok bk => build_iso env bk release json_output

/-- Is this event a progress emission? -/
def Event.isProgress : Event → Bool
  | Event.progress _ _ _ => true
  | _ => false

/-- Events a stage body may emit: anything except progress lines and the
teardown actions (stop/remove). -/
def quietEvent : Event → Bool
  | Event.progress _ _ _ => false
  | Event.stop _ => false
  | Event.rm _ => false
  | _ => true

/-- Events a stage (wrapper included) may emit: no teardown actions, and
progress fractions only 0 or 1. -/
def stageSafe : Event → Bool
  | Event.progress _ q _ => decide (q = 0) || decide (q = 1)
  | Event.stop _ => false
  | Event.rm _ => false
  | _ => true

/-- The fraction carried by a progress event is exactly 0 or exactly 1. -/
def Event.goodFraction : Event → Prop
  | Event.progress _ q _ => q = 0 ∨ q = 1
  | _ => True

/-- Projection of a trace to its progress emissions (stage name, fraction). -/
def progressEvents (t : List Event) : List (String × ℚ) :=
  t.filterMap (fun e => match e with | Event.progress s q _ => some (s, q) | _ => none)

/-- Projection of a trace to the JSON lines printed on stdout: the progress
emissions made with `json_output = true`. -/
def jsonLines (t : List Event) : List (String × ℚ) :=
  t.filterMap (fun e => match e with | Event.progress s q true => some (s, q) | _ => none)

/-- Projection of a trace to its non-progress events (the external commands
it ran). -/
def commandEvents (t : List Event) : List Event :=
  t.filter (fun e => !(Event.isProgress e))

def countStop (t : List Event) : Nat :=
  t.countP (fun e => match e with | Event.stop _ => true | _ => false)

def countRm (t : List Event) : Nat :=
  t.countP (fun e => match e with | Event.rm _ => true | _ => false)

/-- Every event of the trace is stage-safe. -/
def SafeM {α : Type} (m : M α) : Prop := ∀ e ∈ m.2, stageSafe e = true

/-- Every event of the trace is quiet (no progress, no teardown). -/
def Quiet {α : Type} (m : M α) : Prop := ∀ e ∈ m.2, quietEvent e = true

/-- The per-stage pair sequence of progress emissions in pipeline order. -/
def stageNames : List String :=
  ["setup_container", "install_packages", "remove_packages", "run_scripts", "build_rootfs",
   "copy_files", "install_installer", "install_custom_packages", "create_iso"]

def stageSeq : List (String × ℚ) :=
  stageNames.flatMap (fun s => [(s, 0), (s, 1)])

/-- The command events `run_scripts` performs for a given entry list: for
each `.sh` entry, in order, a copy into the container followed by the
execute-and-delete shell command. -/
def scriptCmds (base_dir container : String) (names : List String) : List Event :=
  (names.filter (fun n => rustExtension n == some "sh")).flatMap
    (fun n =>
      [Event.cp (base_dir ++ "/scripts/" ++ n) container ("/tmp/" ++ n),
       Event.exec container ("bash /tmp/" ++ n ++ " && rm /tmp/" ++ n)])

/-! ### Concrete fixtures used by witnesses and counterexamples -/

def okOutcome : CmdOutcome := ⟨true, true⟩

/-- An environment in which every external operation succeeds, the optional
inputs (removal list, scripts, files, install-files, repos) are absent, and
the mandatory package list holds "vim\nbash". -/
def baseEnv : Env where
  pullRes := okOutcome
  createRes := okOutcome
  startRes := okOutcome
  stopRes := okOutcome
  rmRes := okOutcome
  execRes := fun _ => okOutcome
  execStderrText := fun _ => ""
  cpRes := fun _ => okOutcome
  scriptsDirExists := false
  scriptEntries := []
  filesDirExists := false
  installFilesDirExists := false
  reposDirExists := false
  removeListExists := false
  removeListContents := ""
  packageListContents := "vim\nbash"
  pkgListExists := true
  pkgListLen := 9
  pkgMetaOk := true
  hostFsOk := true
  baseDirPath := "/work"

def fedoraConfig : Config :=
  { distro := "fedora", image_name := "TestOS", installer := none, architecture := none }

/-- An unsupported-distro configuration. -/
def archConfig : Config :=
  { distro := "arch", image_name := "TestOS", installer := none, architecture := none }

/-- The backend `BaseBackend::new` produces for `fedoraConfig` in `baseEnv`. -/
def fedoraBase : BaseBackend where
  config := fedoraConfig
  base_dir := "/work"
  cache_dir := "/work/build/.cache"
  release_dir := "/work/build/release"
  container_image := "fedora:latest-x86_64"
  container_name := "ulb-fedora-builder"

def fedoraBk : AnyBackend := AnyBackend.fedora ⟨fedoraBase⟩

/-- Like `baseEnv` but every remote command inside the container fails. -/
def failExecEnv : Env := { baseEnv with execRes := fun _ => ⟨true, false⟩ }

/-- Like `baseEnv` but `podman pull` reports a non-zero exit. -/
def pullFailEnv : Env := { baseEnv with pullRes := ⟨true, false⟩ }

/-- Like `baseEnv` but `podman create` reports a non-zero exit. -/
def createFailEnv : Env := { baseEnv with createRes := ⟨true, false⟩ }

/-- Like `baseEnv` but `podman start` reports a non-zero exit. -/
def startFailEnv : Env := { baseEnv with startRes := ⟨true, false⟩ }

/-- Like `baseEnv` but every remote command fails and captures stderr "AAAA". -/
def stderrEnvA : Env :=
  { baseEnv with execRes := fun _ => ⟨true, false⟩, execStderrText := fun _ => "AAAA" }

/-- Like `stderrEnvA` with captured stderr "BBBB" instead. -/
def stderrEnvB : Env :=
  { baseEnv with execRes := fun _ => ⟨true, false⟩, execStderrText := fun _ => "BBBB" }

/-- Like `baseEnv` but the remote command "cmd2" fails (stderr "boom"). -/
def execC2FailEnv : Env :=
  { baseEnv with execRes := fun s => if s = "cmd2" then ⟨true, false⟩ else okOutcome,
                 execStderrText := fun _ => "boom" }

/-- Like `baseEnv` but a scripts directory with entries b.sh, a.sh, c.sh. -/
def scriptsEnv : Env :=
  { baseEnv with scriptsDirExists := true, scriptEntries := ["b.sh", "a.sh", "c.sh"] }

/-! ### Core lemmas about the effect monad -/

theorem M.bind_ok_pair {α β : Type} (a : α) (t : List Event) (f : α → M β) :
    M.bind (Except.ok a, t) f = ((f a).1, t ++ (f a).2) := rfl

theorem M.bind_err_pair {α β : Type} (e : UlbError) (t : List Event) (f : α → M β) :
    M.bind (Except.error e, t) f = (Except.error e, t) := rfl

theorem M.bind_fst_ok {α β : Type} {x : M α} {f : α → M β} {b : β}
    (h : (M.bind x f).1 = Except.ok b) :
    ∃ a, x.1 = Except.ok a ∧ (f a).1 = Except.ok b := by
  obtain ⟨r, t⟩ := x
  cases r with
  | error e => simp [M.bind] at h
  | ok a => exact ⟨a, rfl, by simpa [M.bind] using h⟩

theorem M.bind_trace_ok {α β : Type} {x : M α} {f : α → M β} {a : α}
    (h : x.1 = Except.ok a) :
    (M.bind x f).2 = x.2 ++ (f a).2 := by
  obtain ⟨r, t⟩ := x
  cases r with
  | error e => simp at h
  | ok a2 =>
    simp only at h
    cases h
    rfl

theorem M.bind_err_eq {α β : Type} {x : M α} {f : α → M β} {e : UlbError}
    (h : x.1 = Except.error e) :
    M.bind x f = (Except.error e, x.2) := by
  obtain ⟨r, t⟩ := x
  cases r with
  | error e2 =>
    simp only at h
    cases h
    rfl
  | ok a => simp at h

/-! ### Safety and quietness of traces -/

theorem safe_of_quiet {e : Event} (h : quietEvent e = true) : stageSafe e = true := by
  cases e <;> simp_all [quietEvent, stageSafe]

theorem SafeM_of_Quiet {α : Type} {m : M α} (h : Quiet m) : SafeM m :=
  fun e he => safe_of_quiet (h e he)

theorem Quiet_pure {α : Type} (a : α) : Quiet (M.pure a) := by
  intro e he
  simp [M.pure] at he

theorem Quiet_throw {α : Type} (err : UlbError) : Quiet (M.throw err : M α) := by
  intro e he
  simp [M.throw] at he

theorem Quiet_bind {α β : Type} {x : M α} {f : α → M β}
    (hx : Quiet x) (hf : ∀ a, Quiet (f a)) : Quiet (M.bind x f) := by
  obtain ⟨r, t⟩ := x
  cases r with
  | error e => intro e2 he; exact hx e2 he
  | ok a =>
    intro e2 he
    rw [M.bind_ok_pair] at he
    rcases List.mem_append.mp he with h1 | h2
    · exact hx e2 h1
    · exact hf a e2 h2

theorem Quiet_ite {α : Type} {c : Prop} [Decidable c] {x y : M α}
    (hx : Quiet x) (hy : Quiet y) : Quiet (if c then x else y) := by
  split
  · exact hx
  · exact hy

theorem Quiet_runStatus {res : CmdOutcome} {ev : Event} (h : quietEvent ev = true) :
    Quiet (runStatus res ev) := by
  intro e he
  unfold runStatus at he
  split at he <;> simp only at he <;> rcases List.mem_singleton.mp he with rfl <;> exact h

theorem Quiet_podman_exec (env : Env) (container : String) (cmds : List String) (stage : String) :
    Quiet (podman_exec env container cmds stage) := by
  induction cmds with
  | nil =>
    intro e he
    simp [podman_exec, M.pure] at he
  | cons cmd rest ih =>
    intro e he
    unfold podman_exec at he
    split at he
    · split at he
      · rw [show M.tell (Event.exec container cmd) = (Except.ok (), [Event.exec container cmd]) from rfl,
           M.bind_ok_pair] at he
        rcases List.mem_append.mp he with h1 | h2
        · rcases List.mem_singleton.mp h1 with rfl
          rfl
        · exact ih e h2
      · simp only at he
        rcases List.mem_cons.mp he with rfl | h2
        · rfl
        · rcases List.mem_singleton.mp h2 with rfl
          rfl
    · simp only at he
      rcases List.mem_singleton.mp he with rfl
      rfl

theorem Quiet_podman_cp (env : Env) (src container dest : String) :
    Quiet (podman_cp env src container dest) := by
  refine Quiet_bind (Quiet_runStatus ?_) (fun ok => Quiet_ite (Quiet_pure ()) (Quiet_throw _))
  rfl

theorem Quiet_create_dir_all (env : Env) : Quiet (create_dir_all env) := by
  unfold create_dir_all
  exact Quiet_ite (Quiet_pure ()) (Quiet_throw _)

theorem Quiet_runScriptEntries (env : Env) (self : BaseBackend) (container : String)
    (names : List String) : Quiet (runScriptEntries env self container names) := by
  induction names with
  | nil => exact Quiet_pure ()
  | cons name rest ih =>
    unfold runScriptEntries
    split
    · exact Quiet_bind (Quiet_podman_cp env _ container _)
        (fun _ => Quiet_bind (Quiet_podman_exec env container _ _) (fun _ => ih))
    · exact ih

/-! ### Stage wrapper lemmas -/

theorem stageWrap_ok_eq {mid : M Unit} {a : Unit} (s : String) (j : Bool)
    (h : mid.1 = Except.ok a) :
    stageWrap s j mid =
      (Except.ok (), Event.progress s 0 j :: (mid.2 ++ [Event.progress s 1 j])) := by
  obtain ⟨r, t⟩ := mid
  cases r <;> simp_all [stageWrap, emit_progress, M.bind, M.tell]

theorem stageWrap_err_eq {mid : M Unit} {err : UlbError} (s : String) (j : Bool)
    (h : mid.1 = Except.error err) :
    stageWrap s j mid = (Except.error err, Event.progress s 0 j :: mid.2) := by
  obtain ⟨r, t⟩ := mid
  cases r <;> simp_all [stageWrap, emit_progress, M.bind, M.tell]

theorem stageWrap_fst_ok {mid : M Unit} {s : String} {j : Bool} {u : Unit}
    (h : (stageWrap s j mid).1 = Except.ok u) : mid.1 = Except.ok () := by
  obtain ⟨r, t⟩ := mid
  cases r with
  | error e =>
    rw [stageWrap_err_eq s j rfl] at h
    simp at h
  | ok a => rfl

theorem stageSafe_progress0 (s : String) (j : Bool) : stageSafe (Event.progress s 0 j) = true := by
  simp [stageSafe]

theorem stageSafe_progress1 (s : String) (j : Bool) : stageSafe (Event.progress s 1 j) = true := by
  simp [stageSafe]

theorem SafeM_stageWrap {mid : M Unit} (s : String) (j : Bool) (hq : Quiet mid) :
    SafeM (stageWrap s j mid) := by
  intro e he
  rcases hr : mid.1 with err | a
  · rw [stageWrap_err_eq s j hr] at he
    rcases List.mem_cons.mp he with rfl | h2
    · exact stageSafe_progress0 s j
    · exact safe_of_quiet (hq e h2)
  · rw [stageWrap_ok_eq s j hr] at he
    rcases List.mem_cons.mp he with rfl | h2
    · exact stageSafe_progress0 s j
    · rcases List.mem_append.mp h2 with h3 | h4
      · exact safe_of_quiet (hq e h3)
      · rcases List.mem_singleton.mp h4 with rfl
        exact stageSafe_progress1 s j

/-! ### Trace projections -/

theorem progressEvents_append (t1 t2 : List Event) :
    progressEvents (t1 ++ t2) = progressEvents t1 ++ progressEvents t2 := by
  simp [progressEvents]

theorem jsonLines_append (t1 t2 : List Event) :
    jsonLines (t1 ++ t2) = jsonLines t1 ++ jsonLines t2 := by
  simp [jsonLines]

theorem progressEvents_cons_progress (s : String) (q : ℚ) (j : Bool) (t : List Event) :
    progressEvents (Event.progress s q j :: t) = (s, q) :: progressEvents t := by
  simp [progressEvents]

theorem jsonLines_cons_true (s : String) (q : ℚ) (t : List Event) :
    jsonLines (Event.progress s q true :: t) = (s, q) :: jsonLines t := by
  simp [jsonLines]

theorem progressEvents_nil_of_quiet (t : List Event) (h : ∀ e ∈ t, quietEvent e = true) :
    progressEvents t = [] := by
  induction t with
  | nil => rfl
  | cons e rest ih =>
    have he := h e (List.mem_cons_self e rest)
    have hr := ih (fun x hx => h x (List.mem_cons_of_mem e hx))
    cases e <;> simp_all [progressEvents, quietEvent]

theorem jsonLines_nil_of_quiet (t : List Event) (h : ∀ e ∈ t, quietEvent e = true) :
    jsonLines t = [] := by
  induction t with
  | nil => rfl
  | cons e rest ih =>
    have he := h e (List.mem_cons_self e rest)
    have hr := ih (fun x hx => h x (List.mem_cons_of_mem e hx))
    cases e <;> simp_all [jsonLines, quietEvent]

theorem stageWrap_ok_progress {mid : M Unit} {s : String} {j : Bool} {u : Unit}
    (hq : Quiet mid) (h : (stageWrap s j mid).1 = Except.ok u) :
    progressEvents (stageWrap s j mid).2 = [(s, (0 : ℚ)), (s, 1)] := by
  have hm := stageWrap_fst_ok h
  rw [stageWrap_ok_eq s j hm, progressEvents_cons_progress, progressEvents_append,
      progressEvents_nil_of_quiet mid.2 hq]
  simp [progressEvents]

theorem stageWrap_ok_json {mid : M Unit} {s : String} {u : Unit}
    (hq : Quiet mid) (h : (stageWrap s true mid).1 = Except.ok u) :
    jsonLines (stageWrap s true mid).2 = [(s, (0 : ℚ)), (s, 1)] := by
  have hm := stageWrap_fst_ok h
  rw [stageWrap_ok_eq s true hm, jsonLines_cons_true, jsonLines_append,
      jsonLines_nil_of_quiet mid.2 hq]
  simp [jsonLines]

theorem countP_nil_of_safe (p : Event → Bool) (t : List Event)
    (hp : ∀ e, stageSafe e = true → p e = false)
    (h : ∀ e ∈ t, stageSafe e = true) :
    t.countP p = 0 := by
  rw [List.countP_eq_zero]
  intro a ha
  simp [hp a (h a ha)]

theorem countStop_append (t1 t2 : List Event) :
    countStop (t1 ++ t2) = countStop t1 + countStop t2 := by
  simp [countStop, List.countP_append]

theorem countRm_append (t1 t2 : List Event) :
    countRm (t1 ++ t2) = countRm t1 + countRm t2 := by
  simp [countRm, List.countP_append]

theorem countStop_nil_of_safe {α : Type} {m : M α} (h : SafeM m) : countStop m.2 = 0 := by
  refine countP_nil_of_safe _ _ ?_ h
  intro e hs
  cases e <;> simp_all [stageSafe]

theorem countRm_nil_of_safe {α : Type} {m : M α} (h : SafeM m) : countRm m.2 = 0 := by
  refine countP_nil_of_safe _ _ ?_ h
  intro e hs
  cases e <;> simp_all [stageSafe]

/-! ### Every stage is a wrapped quiet body -/

theorem install_packages_wrap (bk : AnyBackend) (env : Env) (container : String) (j : Bool) :
    ∃ mid, AnyBackend.install_packages bk env container j = stageWrap "install_packages" j mid
      ∧ Quiet mid := by
  cases bk with
  | fedora b =>
    exact ⟨_, rfl, Quiet_bind (Quiet_podman_exec env container _ _)
      (fun _ => Quiet_podman_exec env container _ _)⟩
  | debian b => exact ⟨_, rfl, Quiet_podman_exec env container _ _⟩

theorem remove_packages_wrap (bk : AnyBackend) (env : Env) (container : String) (j : Bool) :
    ∃ mid, AnyBackend.remove_packages bk env container j = stageWrap "remove_packages" j mid
      ∧ Quiet mid := by
  cases bk with
  | fedora b =>
    exact ⟨_, rfl, Quiet_ite (Quiet_podman_exec env container _ _) (Quiet_pure ())⟩
  | debian b =>
    exact ⟨_, rfl, Quiet_ite (Quiet_podman_exec env container _ _) (Quiet_pure ())⟩

theorem run_scripts_wrap (env : Env) (base : BaseBackend) (container : String) (j : Bool) :
    ∃ mid, BaseBackend.run_scripts env base container j = stageWrap "run_scripts" j mid
      ∧ Quiet mid := by
  exact ⟨_, rfl, Quiet_ite (Quiet_runScriptEntries env base container _) (Quiet_pure ())⟩

theorem build_rootfs_wrap (bk : AnyBackend) (env : Env) (container : String) (j : Bool) :
    ∃ mid, AnyBackend.build_rootfs bk env container j = stageWrap "build_rootfs" j mid
      ∧ Quiet mid := by
  cases bk with
  | fedora b =>
    exact ⟨_, rfl, Quiet_bind (Quiet_create_dir_all env)
      (fun _ => Quiet_podman_exec env container _ _)⟩
  | debian b =>
    exact ⟨_, rfl, Quiet_bind (Quiet_create_dir_all env)
      (fun _ => Quiet_podman_exec env container _ _)⟩

theorem copy_files_wrap (env : Env) (base : BaseBackend) (container : String) (j : Bool) :
    ∃ mid, BaseBackend.copy_files env base container j = stageWrap "copy_files" j mid
      ∧ Quiet mid := by
  refine ⟨_, rfl, Quiet_bind (Quiet_ite (Quiet_podman_exec env container _ _) (Quiet_pure ()))
    (fun _ => Quiet_ite (Quiet_bind (Quiet_podman_exec env container _ _)
      (fun _ => Quiet_podman_exec env container _ _)) (Quiet_pure ()))⟩

theorem install_installer_wrap (bk : AnyBackend) (env : Env) (container : String) (j : Bool) :
    ∃ mid, AnyBackend.install_installer bk env container j = stageWrap "install_installer" j mid
      ∧ Quiet mid := by
  cases bk with
  | fedora b =>
    refine ⟨_, rfl, ?_⟩
    cases b.base.config.installer with
    | some installer => exact Quiet_podman_exec env container _ _
    | none => exact Quiet_pure ()
  | debian b =>
    refine ⟨_, rfl, ?_⟩
    cases b.base.config.installer with
    | some installer => exact Quiet_podman_exec env container _ _
    | none => exact Quiet_pure ()

theorem install_custom_packages_wrap (bk : AnyBackend) (env : Env) (container : String)
    (j : Bool) :
    ∃ mid, AnyBackend.install_custom_packages bk env container j
        = stageWrap "install_custom_packages" j mid
      ∧ Quiet mid := by
  cases bk with
  | fedora b =>
    exact ⟨_, rfl, Quiet_ite (Quiet_bind (Quiet_podman_exec env container _ _)
      (fun _ => Quiet_podman_exec env container _ _)) (Quiet_pure ())⟩
  | debian b =>
    exact ⟨_, rfl, Quiet_ite (Quiet_bind (Quiet_podman_exec env container _ _)
      (fun _ => Quiet_podman_exec env container _ _)) (Quiet_pure ())⟩

theorem create_iso_wrap (bk : AnyBackend) (env : Env) (container : String)
    (release j : Bool) :
    ∃ mid, AnyBackend.create_iso bk env container release j = stageWrap "create_iso" j mid
      ∧ Quiet mid := by
  cases bk with
  | fedora b => exact ⟨_, rfl, Quiet_podman_exec env container _ _⟩
  | debian b => exact ⟨_, rfl, Quiet_podman_exec env container _ _⟩

/-! ### SafeM closure lemmas and the provisioning stage -/

theorem SafeM_pure {α : Type} (a : α) : SafeM (M.pure a) := by
  intro e he
  simp [M.pure] at he

theorem SafeM_throw {α : Type} (err : UlbError) : SafeM (M.throw err : M α) := by
  intro e he
  simp [M.throw] at he

theorem SafeM_tell {ev : Event} (h : stageSafe ev = true) : SafeM (M.tell ev) := by
  intro e he
  rcases List.mem_singleton.mp he with rfl
  exact h

theorem SafeM_bind {α β : Type} {x : M α} {f : α → M β}
    (hx : SafeM x) (hf : ∀ a, SafeM (f a)) : SafeM (M.bind x f) := by
  obtain ⟨r, t⟩ := x
  cases r with
  | error e => intro e2 he; exact hx e2 he
  | ok a =>
    intro e2 he
    rw [M.bind_ok_pair] at he
    rcases List.mem_append.mp he with h1 | h2
    · exact hx e2 h1
    · exact hf a e2 h2

theorem SafeM_ite {α : Type} {c : Prop} [Decidable c] {x y : M α}
    (hx : SafeM x) (hy : SafeM y) : SafeM (if c then x else y) := by
  split
  · exact hx
  · exact hy

theorem SafeM_runStatus {res : CmdOutcome} {ev : Event} (h : stageSafe ev = true) :
    SafeM (runStatus res ev) := by
  intro e he
  unfold runStatus at he
  split at he <;> simp only at he <;> rcases List.mem_singleton.mp he with rfl <;> exact h

theorem SafeM_setup (env : Env) (b : BaseBackend) (j : Bool) :
    SafeM (setup_container env b j) := by
  unfold setup_container emit_progress
  refine SafeM_bind (SafeM_tell (stageSafe_progress0 _ _)) (fun _ => ?_)
  refine SafeM_bind (SafeM_runStatus rfl) (fun st => ?_)
  refine SafeM_ite ?_ (SafeM_throw _)
  refine SafeM_bind (SafeM_runStatus rfl) (fun st2 => ?_)
  refine SafeM_ite ?_ (SafeM_throw _)
  refine SafeM_bind (SafeM_runStatus rfl) (fun _ => ?_)
  exact SafeM_bind (SafeM_tell (stageSafe_progress1 _ _)) (fun _ => SafeM_pure _)

theorem setup_ok_char (env : Env) (b : BaseBackend) (j : Bool) (c : String)
    (h : (setup_container env b j).1 = Except.ok c) :
    c = b.container_name ∧
    (setup_container env b j).2 =
      [Event.progress "setup_container" 0 j, Event.pull b.container_image,
       Event.create b.container_name b.container_image, Event.start b.container_name,
       Event.progress "setup_container" 1 j] := by
  cases h1 : env.pullRes.spawnOk <;> cases h2 : env.pullRes.exitOk <;>
    cases h3 : env.createRes.spawnOk <;> cases h4 : env.createRes.exitOk <;>
    cases h5 : env.startRes.spawnOk <;>
    simp_all [setup_container, runStatus, emit_progress, M.bind, M.tell, M.pure, M.throw]

/-! ### Pipeline decomposition -/

theorem SafeM_body (env : Env) (bk : AnyBackend) (container : String) (release j : Bool) :
    SafeM (pipelineBody env bk container release j) := by
  unfold pipelineBody
  obtain ⟨m1, e1, q1⟩ := install_packages_wrap bk env container j
  obtain ⟨m2, e2, q2⟩ := remove_packages_wrap bk env container j
  obtain ⟨m3, e3, q3⟩ := run_scripts_wrap env (AnyBackend.base bk) container j
  obtain ⟨m4, e4, q4⟩ := build_rootfs_wrap bk env container j
  obtain ⟨m5, e5, q5⟩ := copy_files_wrap env (AnyBackend.base bk) container j
  obtain ⟨m6, e6, q6⟩ := install_installer_wrap bk env container j
  obtain ⟨m7, e7, q7⟩ := install_custom_packages_wrap bk env container j
  obtain ⟨m8, e8, q8⟩ := create_iso_wrap bk env container release j
  rw [e1, e2, e3, e4, e5, e6, e7, e8]
  exact SafeM_bind (SafeM_stageWrap _ _ q1) (fun _ =>
    SafeM_bind (SafeM_stageWrap _ _ q2) (fun _ =>
    SafeM_bind (SafeM_stageWrap _ _ q3) (fun _ =>
    SafeM_bind (SafeM_stageWrap _ _ q4) (fun _ =>
    SafeM_bind (SafeM_stageWrap _ _ q5) (fun _ =>
    SafeM_bind (SafeM_stageWrap _ _ q6) (fun _ =>
    SafeM_bind (SafeM_stageWrap _ _ q7) (fun _ => SafeM_stageWrap _ _ q8)))))))

theorem pipeline_ok_split (env : Env) (bk : AnyBackend) (release j : Bool) (c : String)
    (h : (setup_container env (AnyBackend.base bk) j).1 = Except.ok c) :
    build_iso_pipeline env bk release j =
      ((pipelineBody env bk c release j).1,
       (setup_container env (AnyBackend.base bk) j).2 ++
         ((pipelineBody env bk c release j).2 ++ [Event.stop c, Event.rm c])) := by
  unfold build_iso_pipeline
  rcases hS : setup_container env (AnyBackend.base bk) j with ⟨r, t⟩
  rw [hS] at h
  simp only at h
  subst h
  rw [M.bind_ok_pair]
  simp [withDefer, BaseBackend.cleanup_container, hS]

theorem pipeline_err_split (env : Env) (bk : AnyBackend) (release j : Bool) (err : UlbError)
    (h : (setup_container env (AnyBackend.base bk) j).1 = Except.error err) :
    build_iso_pipeline env bk release j =
      (Except.error err, (setup_container env (AnyBackend.base bk) j).2) := by
  unfold build_iso_pipeline
  exact M.bind_err_eq h

theorem body_ok_progress (env : Env) (bk : AnyBackend) (container : String) (release j : Bool)
    (u : Unit) (h : (pipelineBody env bk container release j).1 = Except.ok u) :
    progressEvents (pipelineBody env bk container release j).2 =
      [("install_packages", (0 : ℚ)), ("install_packages", 1),
       ("remove_packages", 0), ("remove_packages", 1),
       ("run_scripts", 0), ("run_scripts", 1),
       ("build_rootfs", 0), ("build_rootfs", 1),
       ("copy_files", 0), ("copy_files", 1),
       ("install_installer", 0), ("install_installer", 1),
       ("install_custom_packages", 0), ("install_custom_packages", 1),
       ("create_iso", 0), ("create_iso", 1)] := by
  obtain ⟨m1, e1, q1⟩ := install_packages_wrap bk env container j
  obtain ⟨m2, e2, q2⟩ := remove_packages_wrap bk env container j
  obtain ⟨m3, e3, q3⟩ := run_scripts_wrap env (AnyBackend.base bk) container j
  obtain ⟨m4, e4, q4⟩ := build_rootfs_wrap bk env container j
  obtain ⟨m5, e5, q5⟩ := copy_files_wrap env (AnyBackend.base bk) container j
  obtain ⟨m6, e6, q6⟩ := install_installer_wrap bk env container j
  obtain ⟨m7, e7, q7⟩ := install_custom_packages_wrap bk env container j
  obtain ⟨m8, e8, q8⟩ := create_iso_wrap bk env container release j
  unfold pipelineBody at h ⊢
  rw [e1, e2, e3, e4, e5, e6, e7, e8] at h ⊢
  obtain ⟨a1, h1, h⟩ := M.bind_fst_ok h
  obtain ⟨a2, h2, h⟩ := M.bind_fst_ok h
  obtain ⟨a3, h3, h⟩ := M.bind_fst_ok h
  obtain ⟨a4, h4, h⟩ := M.bind_fst_ok h
  obtain ⟨a5, h5, h⟩ := M.bind_fst_ok h
  obtain ⟨a6, h6, h⟩ := M.bind_fst_ok h
  obtain ⟨a7, h7, h⟩ := M.bind_fst_ok h
  simp only [M.bind_trace_ok h1, M.bind_trace_ok h2, M.bind_trace_ok h3, M.bind_trace_ok h4,
    M.bind_trace_ok h5, M.bind_trace_ok h6, M.bind_trace_ok h7, progressEvents_append,
    stageWrap_ok_progress q1 h1, stageWrap_ok_progress q2 h2, stageWrap_ok_progress q3 h3,
    stageWrap_ok_progress q4 h4, stageWrap_ok_progress q5 h5, stageWrap_ok_progress q6 h6,
    stageWrap_ok_progress q7 h7, stageWrap_ok_progress q8 h]
  rfl

theorem body_ok_json (env : Env) (bk : AnyBackend) (container : String) (release : Bool)
    (u : Unit) (h : (pipelineBody env bk container release true).1 = Except.ok u) :
    jsonLines (pipelineBody env bk container release true).2 =
      [("install_packages", (0 : ℚ)), ("install_packages", 1),
       ("remove_packages", 0), ("remove_packages", 1),
       ("run_scripts", 0), ("run_scripts", 1),
       ("build_rootfs", 0), ("build_rootfs", 1),
       ("copy_files", 0), ("copy_files", 1),
       ("install_installer", 0), ("install_installer", 1),
       ("install_custom_packages", 0), ("install_custom_packages", 1),
       ("create_iso", 0), ("create_iso", 1)] := by
  obtain ⟨m1, e1, q1⟩ := install_packages_wrap bk env container true
  obtain ⟨m2, e2, q2⟩ := remove_packages_wrap bk env container true
  obtain ⟨m3, e3, q3⟩ := run_scripts_wrap env (AnyBackend.base bk) container true
  obtain ⟨m4, e4, q4⟩ := build_rootfs_wrap bk env container true
  obtain ⟨m5, e5, q5⟩ := copy_files_wrap env (AnyBackend.base bk) container true
  obtain ⟨m6, e6, q6⟩ := install_installer_wrap bk env container true
  obtain ⟨m7, e7, q7⟩ := install_custom_packages_wrap bk env container true
  obtain ⟨m8, e8, q8⟩ := create_iso_wrap bk env container release true
  unfold pipelineBody at h ⊢
  rw [e1, e2, e3, e4, e5, e6, e7, e8] at h ⊢
  obtain ⟨a1, h1, h⟩ := M.bind_fst_ok h
  obtain ⟨a2, h2, h⟩ := M.bind_fst_ok h
  obtain ⟨a3, h3, h⟩ := M.bind_fst_ok h
  obtain ⟨a4, h4, h⟩ := M.bind_fst_ok h
  obtain ⟨a5, h5, h⟩ := M.bind_fst_ok h
  obtain ⟨a6, h6, h⟩ := M.bind_fst_ok h
  obtain ⟨a7, h7, h⟩ := M.bind_fst_ok h
  simp only [M.bind_trace_ok h1, M.bind_trace_ok h2, M.bind_trace_ok h3, M.bind_trace_ok h4,
    M.bind_trace_ok h5, M.bind_trace_ok h6, M.bind_trace_ok h7, jsonLines_append,
    stageWrap_ok_json q1 h1, stageWrap_ok_json q2 h2, stageWrap_ok_json q3 h3,
    stageWrap_ok_json q4 h4, stageWrap_ok_json q5 h5, stageWrap_ok_json q6 h6,
    stageWrap_ok_json q7 h7, stageWrap_ok_json q8 h]
  rfl

theorem pipeline_ok_full (env : Env) (bk : AnyBackend) (release j : Bool) (u : Unit)
    (h : (build_iso_pipeline env bk release j).1 = Except.ok u) :
    progressEvents (build_iso_pipeline env bk release j).2 = stageSeq ∧
    ∃ t, (build_iso_pipeline env bk release j).2
        = t ++ [Event.stop (AnyBackend.base bk).container_name,
                Event.rm (AnyBackend.base bk).container_name] := by
  have h2 := h
  unfold build_iso_pipeline at h2
  obtain ⟨c, hS, hW⟩ := M.bind_fst_ok h2
  have hB : (pipelineBody env bk c release j).1 = Except.ok u := hW
  obtain ⟨hc, hT⟩ := setup_ok_char env (AnyBackend.base bk) j c hS
  subst hc
  rw [pipeline_ok_split env bk release j _ hS]
  constructor
  · rw [hT, progressEvents_append, progressEvents_append,
        body_ok_progress env bk _ release j u hB]
    rfl
  · exact ⟨(setup_container env (AnyBackend.base bk) j).2
        ++ (pipelineBody env bk (AnyBackend.base bk).container_name release j).2,
      by rw [List.append_assoc]⟩

theorem pipeline_ok_jsonLines (env : Env) (bk : AnyBackend) (release : Bool) (u : Unit)
    (h : (build_iso_pipeline env bk release true).1 = Except.ok u) :
    jsonLines (build_iso_pipeline env bk release true).2 = stageSeq := by
  have h2 := h
  unfold build_iso_pipeline at h2
  obtain ⟨c, hS, hW⟩ := M.bind_fst_ok h2
  have hB : (pipelineBody env bk c release true).1 = Except.ok u := hW
  obtain ⟨hc, hT⟩ := setup_ok_char env (AnyBackend.base bk) true c hS
  subst hc
  rw [pipeline_ok_split env bk release true _ hS]
  rw [hT, jsonLines_append, jsonLines_append,
      body_ok_json env bk _ release u hB]
  rfl

theorem pipeline_counts (env : Env) (bk : AnyBackend) (release j : Bool) (c : String)
    (h : (setup_container env (AnyBackend.base bk) j).1 = Except.ok c) :
    countStop (build_iso_pipeline env bk release j).2 = 1 ∧
    countRm (build_iso_pipeline env bk release j).2 = 1 := by
  rw [pipeline_ok_split env bk release j c h]
  simp only [countStop_append, countRm_append,
    countStop_nil_of_safe (SafeM_setup env (AnyBackend.base bk) j),
    countStop_nil_of_safe (SafeM_body env bk c release j),
    countRm_nil_of_safe (SafeM_setup env (AnyBackend.base bk) j),
    countRm_nil_of_safe (SafeM_body env bk c release j)]
  constructor <;> rfl

/-! ### Evaluations of the provisioning stage under fixed exit statuses -/

theorem setup_pull_fail (env : Env) (b : BaseBackend) (j : Bool)
    (hs : env.pullRes.spawnOk = true) (he : env.pullRes.exitOk = false) :
    (setup_container env b j).1
      = Except.error (UlbError.Command "setup_container" "Podman pull failed") := by
  simp [setup_container, runStatus, emit_progress, M.bind, M.tell, M.throw, hs, he]

theorem setup_create_fail (env : Env) (b : BaseBackend) (j : Bool)
    (h1 : env.pullRes.spawnOk = true) (h2 : env.pullRes.exitOk = true)
    (h3 : env.createRes.spawnOk = true) (h4 : env.createRes.exitOk = false) :
    (setup_container env b j).1
      = Except.error (UlbError.Command "setup_container" "Podman create failed") := by
  simp [setup_container, runStatus, emit_progress, M.bind, M.tell, M.throw, h1, h2, h3, h4]

theorem setup_start_ignored (env : Env) (b : BaseBackend) (j : Bool)
    (h1 : env.pullRes.spawnOk = true) (h2 : env.pullRes.exitOk = true)
    (h3 : env.createRes.spawnOk = true) (h4 : env.createRes.exitOk = true)
    (h5 : env.startRes.spawnOk = true) :
    (setup_container env b j).1 = Except.ok b.container_name := by
  simp [setup_container, runStatus, emit_progress, M.bind, M.tell, M.pure, h1, h2, h3, h4, h5]

/-! ### The filename order is a total preorder; sorting facts -/

theorem charListLe_total : ∀ as bs : List Char, charListLe as bs = true ∨ charListLe bs as = true
  | [], bs => Or.inl rfl
  | a :: as, [] => Or.inr rfl
  | a :: as, b :: bs => by
    rcases Nat.lt_trichotomy a.toNat b.toNat with h | h | h
    · left
      simp [charListLe, h]
    · have h2 : ¬ a.toNat < b.toNat := by omega
      have h3 : ¬ b.toNat < a.toNat := by omega
      rcases charListLe_total as bs with ih | ih
      · left
        simp [charListLe, h2, h3, ih]
      · right
        simp [charListLe, h2, h3, ih]
    · right
      simp [charListLe, h]

theorem charListLe_trans : ∀ as bs cs : List Char,
    charListLe as bs = true → charListLe bs cs = true → charListLe as cs = true
  | [], _, _, _, _ => rfl
  | a :: as, [], cs, h1, _ => by simp [charListLe] at h1
  | a :: as, b :: bs, [], _, h2 => by simp [charListLe] at h2
  | a :: as, b :: bs, c :: cs, h1, h2 => by
    simp only [charListLe] at h1 h2 ⊢
    by_cases hab : a.toNat < b.toNat <;> by_cases hba : b.toNat < a.toNat <;>
      by_cases hbc : b.toNat < c.toNat <;> by_cases hcb : c.toNat < b.toNat <;>
      by_cases hac : a.toNat < c.toNat <;> by_cases hca : c.toNat < a.toNat <;>
      simp_all <;>
      first
        | omega
        | exact charListLe_trans as bs cs h1 h2
        | exact Or.inr (charListLe_trans as bs cs h1 h2)

instance : IsTotal String (fun a b => fileNameLe a b = true) :=
  ⟨fun a b => charListLe_total a.data b.data⟩

instance : IsTrans String (fun a b => fileNameLe a b = true) :=
  ⟨fun a b c => charListLe_trans a.data b.data c.data⟩

theorem sortStrings_sorted (l : List String) :
    (sortStrings l).Sorted (fun a b => fileNameLe a b = true) :=
  List.sorted_insertionSort _ l

theorem sortStrings_perm (l : List String) : (sortStrings l).Perm l :=
  List.perm_insertionSort _ l

/-! ### Fail-fast execution lemmas -/

theorem podman_exec_all_ok (env : Env) (container stage : String) (cmds : List String)
    (hok : ∀ x ∈ cmds, env.execRes x = ⟨true, true⟩) :
    podman_exec env container cmds stage = (Except.ok (), cmds.map (Event.exec container)) := by
  induction cmds with
  | nil => rfl
  | cons c rest ih =>
    have hc := hok c (List.mem_cons_self c rest)
    have hr := ih (fun x hx => hok x (List.mem_cons_of_mem c hx))
    simp [podman_exec, hc, M.bind, M.tell, hr]

theorem podman_exec_fail_fast (env : Env) (container stage : String) (pre : List String)
    (c : String) (post : List String)
    (hpre : ∀ x ∈ pre, env.execRes x = ⟨true, true⟩)
    (hs : (env.execRes c).spawnOk = true) (hf : (env.execRes c).exitOk = false) :
    podman_exec env container (pre ++ c :: post) stage =
      (Except.error (UlbError.Command stage ("Command failed: " ++ c)),
       pre.map (Event.exec container) ++
         [Event.exec container c,
          Event.logErr ("Command failed in " ++ stage ++ ": " ++ c ++ " - stderr: "
            ++ env.execStderrText c)]) := by
  induction pre with
  | nil =>
    simp [podman_exec, hs, hf]
  | cons p rest ih =>
    have hp := hpre p (List.mem_cons_self p rest)
    have hr := ih (fun x hx => hpre x (List.mem_cons_of_mem p hx))
    simp [podman_exec, hp, M.bind, M.tell, hr]

theorem podman_cp_ok_char (env : Env) (src container dest : String) (a : Unit)
    (h : (podman_cp env src container dest).1 = Except.ok a) :
    podman_cp env src container dest = (Except.ok (), [Event.cp src container dest]) := by
  cases h1 : (env.cpRes src).spawnOk <;> cases h2 : (env.cpRes src).exitOk <;>
    simp_all [podman_cp, runStatus, M.bind, M.pure, M.throw]

theorem podman_exec_one_ok (env : Env) (container cmd stage : String) (a : Unit)
    (h : (podman_exec env container [cmd] stage).1 = Except.ok a) :
    podman_exec env container [cmd] stage = (Except.ok (), [Event.exec container cmd]) := by
  cases h1 : (env.execRes cmd).spawnOk <;> cases h2 : (env.execRes cmd).exitOk <;>
    simp_all [podman_exec, M.bind, M.tell, M.pure]

/-! ### The run_scripts command plan -/

theorem scriptCmds_cons_pos (b c n : String) (rest : List String)
    (hx : rustExtension n = some "sh") :
    scriptCmds b c (n :: rest) =
      Event.cp (b ++ "/scripts/" ++ n) c ("/tmp/" ++ n)
        :: Event.exec c ("bash /tmp/" ++ n ++ " && rm /tmp/" ++ n) :: scriptCmds b c rest := by
  simp [scriptCmds, hx]

theorem scriptCmds_cons_neg (b c n : String) (rest : List String)
    (hx : ¬ rustExtension n = some "sh") :
    scriptCmds b c (n :: rest) = scriptCmds b c rest := by
  simp [scriptCmds, hx]

theorem runScriptEntries_ok_trace (env : Env) (self : BaseBackend) (container : String)
    (names : List String) (u : Unit)
    (h : (runScriptEntries env self container names).1 = Except.ok u) :
    (runScriptEntries env self container names).2 = scriptCmds self.base_dir container names := by
  induction names with
  | nil => rfl
  | cons name rest ih =>
    by_cases hx : rustExtension name = some "sh"
    · rw [scriptCmds_cons_pos self.base_dir container name rest hx]
      unfold runScriptEntries at h ⊢
      rw [if_pos hx] at h ⊢
      obtain ⟨a1, hcp, h2⟩ := M.bind_fst_ok h
      obtain ⟨a2, hex, h3⟩ := M.bind_fst_ok h2
      rw [M.bind_trace_ok hcp, M.bind_trace_ok hex]
      rw [congrArg Prod.snd (podman_cp_ok_char env _ container _ a1 hcp),
          congrArg Prod.snd (podman_exec_one_ok env container _ _ a2 hex),
          ih h3]
      rfl
    · rw [scriptCmds_cons_neg self.base_dir container name rest hx]
      unfold runScriptEntries at h ⊢
      rw [if_neg hx] at h ⊢
      exact ih h

/-! ### Command-event projections -/

theorem commandEvents_append (t1 t2 : List Event) :
    commandEvents (t1 ++ t2) = commandEvents t1 ++ commandEvents t2 := by
  simp [commandEvents]

theorem commandEvents_cons_progress (s : String) (q : ℚ) (j : Bool) (t : List Event) :
    commandEvents (Event.progress s q j :: t) = commandEvents t := by
  simp [commandEvents, Event.isProgress]

theorem commandEvents_scriptCmds (b c : String) (l : List String) :
    commandEvents (scriptCmds b c l) = scriptCmds b c l := by
  induction l with
  | nil => rfl
  | cons n rest ih =>
    by_cases hx : rustExtension n = some "sh"
    · rw [scriptCmds_cons_pos b c n rest hx]
      simp [commandEvents, Event.isProgress] at ih ⊢
      exact ih
    · rw [scriptCmds_cons_neg b c n rest hx]
      exact ih

/-! ### Stage-level characterisation of run_scripts -/

theorem run_scripts_commands (env : Env) (self : BaseBackend) (container : String) (j : Bool)
    (u : Unit) (h : (BaseBackend.run_scripts env self container j).1 = Except.ok u) :
    commandEvents (BaseBackend.run_scripts env self container j).2 =
      (if env.scriptsDirExists = true then
        scriptCmds self.base_dir container (sortStrings env.scriptEntries)
       else []) := by
  unfold BaseBackend.run_scripts at h ⊢
  have hm := stageWrap_fst_ok h
  by_cases hd : env.scriptsDirExists = true
  · rw [if_pos hd] at hm ⊢
    rw [stageWrap_ok_eq _ _ hm, if_pos hd]
    rw [commandEvents_cons_progress, commandEvents_append,
        runScriptEntries_ok_trace env self container _ () hm, commandEvents_scriptCmds]
    simp [commandEvents, Event.isProgress]
  · rw [if_neg hd] at hm ⊢
    rw [stageWrap_ok_eq _ _ hm, if_neg hd]
    simp [commandEvents, Event.isProgress, M.pure]

/-! ### Validation failures stop the run before any event -/

theorem validate_config_fails (env : Env) (config : Config)
    (hmeta : env.pkgMetaOk = true)
    (hbad : (¬ config.distro = "fedora" ∧ ¬ config.distro = "debian")
        ∨ config.image_name = "" ∨ env.pkgListExists = false ∨ env.pkgListLen = 0) :
    ∃ m, validate_config env config = Except.error (UlbError.Validation m) := by
  unfold validate_config
  split_ifs with g1 g2 g3 g4 g5
  · exact ⟨_, rfl⟩
  · exact ⟨_, rfl⟩
  · simp [g4] at hmeta
  · exact ⟨_, rfl⟩
  · exfalso
    rcases hbad with ⟨hf, hdeb⟩ | hb | hb | hb
    · rcases g1 with hd | hd
      · exact hf hd
      · exact hdeb hd
    · exact g2 hb
    · exact g3 hb
    · exact g5 hb
  · exact ⟨_, rfl⟩

theorem mainBuild_validation_err (env : Env) (config : Config) (release j : Bool)
    (hmeta : env.pkgMetaOk = true)
    (hbad : (¬ config.distro = "fedora" ∧ ¬ config.distro = "debian")
        ∨ config.image_name = "" ∨ env.pkgListExists = false ∨ env.pkgListLen = 0) :
    (∃ m, (mainBuild env config release j).1 = Except.error (UlbError.Validation m)) ∧
    (mainBuild env config release j).2 = [] := by
  obtain ⟨m, hv⟩ := validate_config_fails env config hmeta hbad
  refine ⟨⟨m, ?_⟩, ?_⟩ <;> simp [mainBuild, hv]

/-! ### Every emitted fraction is 0 or 1 -/

theorem goodFraction_of_safe {e : Event} (h : stageSafe e = true) : Event.goodFraction e := by
  cases e <;> simp_all [stageSafe, Event.goodFraction]

theorem pipeline_goodFraction (env : Env) (bk : AnyBackend) (release j : Bool) (e : Event)
    (he : e ∈ (build_iso_pipeline env bk release j).2) : Event.goodFraction e := by
  rcases hS : (setup_container env (AnyBackend.base bk) j).1 with err | c
  · rw [congrArg Prod.snd (pipeline_err_split env bk release j err hS)] at he
    exact goodFraction_of_safe (SafeM_setup env _ j e he)
  · rw [congrArg Prod.snd (pipeline_ok_split env bk release j c hS)] at he
    rcases List.mem_append.mp he with h1 | h2
    · exact goodFraction_of_safe (SafeM_setup env _ j e h1)
    · rcases List.mem_append.mp h2 with h3 | h4
      · exact goodFraction_of_safe (SafeM_body env bk c release j e h3)
      · rcases List.mem_cons.mp h4 with rfl | h5
        · trivial
        · rcases List.mem_singleton.mp h5 with rfl
          trivial

theorem mainBuild_goodFraction (env : Env) (config : Config) (release j : Bool) (e : Event)
    (he : e ∈ (mainBuild env config release j).2) : Event.goodFraction e := by
  unfold mainBuild at he
  rcases hv : validate_config env config with verr | vu
  · rw [hv] at he
    simp at he
  · rw [hv] at he
    rcases hc : create_distro_backend env config with cerr | bk
    · rw [hc] at he
      simp at he
    · rw [hc] at he
      exact pipeline_goodFraction env bk release j e he

/-! ### The progress trace of any run is a prefix of the full stage sequence -/

theorem M.bind_trace_err {α β : Type} {x : M α} {f : α → M β} {e : UlbError}
    (h : x.1 = Except.error e) : (M.bind x f).2 = x.2 := by
  rw [M.bind_err_eq h]

theorem stageWrap_err_progress {mid : M Unit} {s : String} {j : Bool} {err : UlbError}
    (hq : Quiet mid) (h : (stageWrap s j mid).1 = Except.error err) :
    progressEvents (stageWrap s j mid).2 = [(s, (0 : ℚ))] := by
  rcases hr : mid.1 with e2 | a
  · rw [stageWrap_err_eq s j hr, progressEvents_cons_progress,
        progressEvents_nil_of_quiet mid.2 hq]
  · rw [stageWrap_ok_eq s j hr] at h
    simp at h

theorem setup_err_progress (env : Env) (b : BaseBackend) (j : Bool) (err : UlbError)
    (h : (setup_container env b j).1 = Except.error err) :
    progressEvents (setup_container env b j).2 = [("setup_container", (0 : ℚ))] := by
  cases h1 : env.pullRes.spawnOk <;> cases h2 : env.pullRes.exitOk <;>
    cases h3 : env.createRes.spawnOk <;> cases h4 : env.createRes.exitOk <;>
    cases h5 : env.startRes.spawnOk <;>
    simp_all [setup_container, runStatus, emit_progress, M.bind, M.tell, M.pure, M.throw,
      progressEvents]

theorem body_progress_initial (env : Env) (bk : AnyBackend) (container : String)
    (release j : Bool) :
    ∃ r, progressEvents (pipelineBody env bk container release j).2 ++ r =
      [("install_packages", (0 : ℚ)), ("install_packages", 1),
       ("remove_packages", 0), ("remove_packages", 1),
       ("run_scripts", 0), ("run_scripts", 1),
       ("build_rootfs", 0), ("build_rootfs", 1),
       ("copy_files", 0), ("copy_files", 1),
       ("install_installer", 0), ("install_installer", 1),
       ("install_custom_packages", 0), ("install_custom_packages", 1),
       ("create_iso", 0), ("create_iso", 1)] := by
  obtain ⟨m1, e1, q1⟩ := install_packages_wrap bk env container j
  obtain ⟨m2, e2, q2⟩ := remove_packages_wrap bk env container j
  obtain ⟨m3, e3, q3⟩ := run_scripts_wrap env (AnyBackend.base bk) container j
  obtain ⟨m4, e4, q4⟩ := build_rootfs_wrap bk env container j
  obtain ⟨m5, e5, q5⟩ := copy_files_wrap env (AnyBackend.base bk) container j
  obtain ⟨m6, e6, q6⟩ := install_installer_wrap bk env container j
  obtain ⟨m7, e7, q7⟩ := install_custom_packages_wrap bk env container j
  obtain ⟨m8, e8, q8⟩ := create_iso_wrap bk env container release j
  unfold pipelineBody
  rw [e1, e2, e3, e4, e5, e6, e7, e8]
  rcases hr1 : (stageWrap "install_packages" j m1).1 with er | a1
  · rw [M.bind_trace_err hr1, stageWrap_err_progress q1 hr1]
    exact ⟨_, rfl⟩
  rw [M.bind_trace_ok hr1]
  rcases hr2 : (stageWrap "remove_packages" j m2).1 with er | a2
  · rw [M.bind_trace_err hr2, progressEvents_append, stageWrap_ok_progress q1 hr1,
        stageWrap_err_progress q2 hr2]
    exact ⟨_, rfl⟩
  rw [M.bind_trace_ok hr2]
  rcases hr3 : (stageWrap "run_scripts" j m3).1 with er | a3
  · rw [M.bind_trace_err hr3, progressEvents_append, progressEvents_append,
        stageWrap_ok_progress q1 hr1, stageWrap_ok_progress q2 hr2,
        stageWrap_err_progress q3 hr3]
    exact ⟨_, rfl⟩
  rw [M.bind_trace_ok hr3]
  rcases hr4 : (stageWrap "build_rootfs" j m4).1 with er | a4
  · rw [M.bind_trace_err hr4, progressEvents_append, progressEvents_append,
        progressEvents_append, stageWrap_ok_progress q1 hr1, stageWrap_ok_progress q2 hr2,
        stageWrap_ok_progress q3 hr3, stageWrap_err_progress q4 hr4]
    exact ⟨_, rfl⟩
  rw [M.bind_trace_ok hr4]
  rcases hr5 : (stageWrap "copy_files" j m5).1 with er | a5
  · rw [M.bind_trace_err hr5, progressEvents_append, progressEvents_append,
        progressEvents_append, progressEvents_append, stageWrap_ok_progress q1 hr1,
        stageWrap_ok_progress q2 hr2, stageWrap_ok_progress q3 hr3,
        stageWrap_ok_progress q4 hr4, stageWrap_err_progress q5 hr5]
    exact ⟨_, rfl⟩
  rw [M.bind_trace_ok hr5]
  rcases hr6 : (stageWrap "install_installer" j m6).1 with er | a6
  · rw [M.bind_trace_err hr6, progressEvents_append, progressEvents_append,
        progressEvents_append, progressEvents_append, progressEvents_append,
        stageWrap_ok_progress q1 hr1, stageWrap_ok_progress q2 hr2,
        stageWrap_ok_progress q3 hr3, stageWrap_ok_progress q4 hr4,
        stageWrap_ok_progress q5 hr5, stageWrap_err_progress q6 hr6]
    exact ⟨_, rfl⟩
  rw [M.bind_trace_ok hr6]
  rcases hr7 : (stageWrap "install_custom_packages" j m7).1 with er | a7
  · rw [M.bind_trace_err hr7, progressEvents_append, progressEvents_append,
        progressEvents_append, progressEvents_append, progressEvents_append,
        progressEvents_append, stageWrap_ok_progress q1 hr1, stageWrap_ok_progress q2 hr2,
        stageWrap_ok_progress q3 hr3, stageWrap_ok_progress q4 hr4,
        stageWrap_ok_progress q5 hr5, stageWrap_ok_progress q6 hr6,
        stageWrap_err_progress q7 hr7]
    exact ⟨_, rfl⟩
  rw [M.bind_trace_ok hr7]
  rcases hr8 : (stageWrap "create_iso" j m8).1 with er | a8
  · rw [progressEvents_append, progressEvents_append, progressEvents_append,
        progressEvents_append, progressEvents_append, progressEvents_append,
        progressEvents_append, stageWrap_ok_progress q1 hr1, stageWrap_ok_progress q2 hr2,
        stageWrap_ok_progress q3 hr3, stageWrap_ok_progress q4 hr4,
        stageWrap_ok_progress q5 hr5, stageWrap_ok_progress q6 hr6,
        stageWrap_ok_progress q7 hr7, stageWrap_err_progress q8 hr8]
    exact ⟨_, rfl⟩
  · rw [progressEvents_append, progressEvents_append, progressEvents_append,
        progressEvents_append, progressEvents_append, progressEvents_append,
        progressEvents_append, stageWrap_ok_progress q1 hr1, stageWrap_ok_progress q2 hr2,
        stageWrap_ok_progress q3 hr3, stageWrap_ok_progress q4 hr4,
        stageWrap_ok_progress q5 hr5, stageWrap_ok_progress q6 hr6,
        stageWrap_ok_progress q7 hr7, stageWrap_ok_progress q8 hr8]
    exact ⟨[], rfl⟩

theorem pipeline_progress_initial (env : Env) (bk : AnyBackend) (release j : Bool) :
    ∃ r, progressEvents (build_iso_pipeline env bk release j).2 ++ r = stageSeq := by
  rcases hS : (setup_container env (AnyBackend.base bk) j).1 with err | c
  · rw [congrArg Prod.snd (pipeline_err_split env bk release j err hS),
        setup_err_progress env (AnyBackend.base bk) j err hS]
    exact ⟨_, rfl⟩
  · obtain ⟨hc, hT⟩ := setup_ok_char env (AnyBackend.base bk) j c hS
    rw [congrArg Prod.snd (pipeline_ok_split env bk release j c hS), progressEvents_append,
        progressEvents_append, hT]
    obtain ⟨r, hr⟩ := body_progress_initial env bk c release j
    refine ⟨r, ?_⟩
    have hsr : progressEvents [Event.stop c, Event.rm c] = [] := rfl
    rw [hsr, List.append_nil, List.append_assoc, hr]
    rfl

/-! ### Claim theorems -/

/-- C1: for every pipeline run in which sandbox provisioning
(setup_container) succeeds, the teardown action (cleanup_container: stop
then remove) is invoked exactly once before the pipeline returns, on every
exit path — the trace of any such run contains exactly one stop event and
exactly one remove event, and they are the final two events of the run,
whether the stages all succeed or any of them errors. -/
theorem C1_teardown_exactly_once (env : Env) (bk : AnyBackend) (release j : Bool) (c : String)
    (h : (setup_container env (AnyBackend.base bk) j).1 = Except.ok c) :
    countStop (build_iso_pipeline env bk release j).2 = 1 ∧
    countRm (build_iso_pipeline env bk release j).2 = 1 ∧
    ∃ t, (build_iso_pipeline env bk release j).2 = t ++ [Event.stop c, Event.rm c] := by
  obtain ⟨h1, h2⟩ := pipeline_counts env bk release j c h
  refine ⟨h1, h2, ?_⟩
  rw [congrArg Prod.snd (pipeline_ok_split env bk release j c h)]
  exact ⟨(setup_container env (AnyBackend.base bk) j).2 ++ (pipelineBody env bk c release j).2,
    by rw [List.append_assoc]⟩

/-- Witness for C1 in an environment whose in-container commands all fail:
provisioning succeeds, the first stage errors, and teardown still runs
exactly once, as the final stop/remove pair. -/
theorem C1_teardown_exactly_once_witness :
    (setup_container failExecEnv (AnyBackend.base fedoraBk) false).1
        = Except.ok "ulb-fedora-builder" ∧
    countStop (build_iso_pipeline failExecEnv fedoraBk false false).2 = 1 ∧
    countRm (build_iso_pipeline failExecEnv fedoraBk false false).2 = 1 ∧
    ∃ t, (build_iso_pipeline failExecEnv fedoraBk false false).2
        = t ++ [Event.stop "ulb-fedora-builder", Event.rm "ulb-fedora-builder"] :=
  ⟨by decide,
   C1_teardown_exactly_once failExecEnv fedoraBk false false "ulb-fedora-builder" (by decide)⟩

/-- C2 counterexample: with the image pull and the sandbox create
succeeding and `podman start` reporting a non-zero exit status, provisioning
nevertheless succeeds — contradicting the claim that a non-zero exit of the
start step causes setup_container to fail (its status is read but never
checked; only pull and create are checked). -/
theorem C2_counterexample :
    startFailEnv.startRes.exitOk = false ∧
    (setup_container startFailEnv fedoraBase false).1 = Except.ok "ulb-fedora-builder" := by
  constructor
  · rfl
  · decide

/-- C2 amended: a non-zero exit of the pull step or of the create step makes
setup_container return a Command error naming the stage and the failing step
("Podman pull failed" / "Podman create failed"); the exit status of the
start step is ignored — whenever pull and create succeed and the start
process could be spawned at all, provisioning returns the container name
regardless of the start exit status. -/
theorem C2_amended_sandbox_errors (env : Env) (b : BaseBackend) (j : Bool) :
    (env.pullRes.spawnOk = true → env.pullRes.exitOk = false →
      (setup_container env b j).1
        = Except.error (UlbError.Command "setup_container" "Podman pull failed")) ∧
    (env.pullRes.spawnOk = true → env.pullRes.exitOk = true →
      env.createRes.spawnOk = true → env.createRes.exitOk = false →
      (setup_container env b j).1
        = Except.error (UlbError.Command "setup_container" "Podman create failed")) ∧
    (env.pullRes.spawnOk = true → env.pullRes.exitOk = true →
      env.createRes.spawnOk = true → env.createRes.exitOk = true →
      env.startRes.spawnOk = true →
      (setup_container env b j).1 = Except.ok b.container_name) :=
  ⟨fun h1 h2 => setup_pull_fail env b j h1 h2,
   fun h1 h2 h3 h4 => setup_create_fail env b j h1 h2 h3 h4,
   fun h1 h2 h3 h4 h5 => setup_start_ignored env b j h1 h2 h3 h4 h5⟩

/-- Witness for the three branches of the amended C2 at concrete
environments. -/
theorem C2_amended_sandbox_errors_witness :
    (setup_container pullFailEnv fedoraBase false).1
      = Except.error (UlbError.Command "setup_container" "Podman pull failed") ∧
    (setup_container createFailEnv fedoraBase false).1
      = Except.error (UlbError.Command "setup_container" "Podman create failed") ∧
    (setup_container startFailEnv fedoraBase false).1 = Except.ok fedoraBase.container_name :=
  ⟨(C2_amended_sandbox_errors pullFailEnv fedoraBase false).1 rfl rfl,
   (C2_amended_sandbox_errors createFailEnv fedoraBase false).2.1 rfl rfl rfl rfl,
   (C2_amended_sandbox_errors startFailEnv fedoraBase false).2.2 rfl rfl rfl rfl rfl⟩

/-- C3 counterexample: when provisioning itself fails (here: the create
step, after a successful pull — a partial sandbox state), the pipeline
propagates the error without attempting teardown: no stop and no remove is
ever issued, contradicting the claim that teardown is still attempted. -/
theorem C3_counterexample :
    (build_iso_pipeline createFailEnv fedoraBk false false).1
      = Except.error (UlbError.Command "setup_container" "Podman create failed") ∧
    countStop (build_iso_pipeline createFailEnv fedoraBk false false).2 = 0 ∧
    countRm (build_iso_pipeline createFailEnv fedoraBk false false).2 = 0 := by
  decide

/-- C3 amended: when provisioning fails, the error propagates directly and
no teardown is attempted — the deferred cleanup only exists after
setup_container has returned successfully, so partial sandbox states are
never cleaned up; teardown happens (exactly once) only for runs whose
provisioning succeeded. -/
theorem C3_amended_no_teardown_on_provision_failure (env : Env) (bk : AnyBackend)
    (release j : Bool) (err : UlbError)
    (h : (setup_container env (AnyBackend.base bk) j).1 = Except.error err) :
    (build_iso_pipeline env bk release j).1 = Except.error err ∧
    countStop (build_iso_pipeline env bk release j).2 = 0 ∧
    countRm (build_iso_pipeline env bk release j).2 = 0 := by
  rw [pipeline_err_split env bk release j err h]
  exact ⟨rfl, countStop_nil_of_safe (SafeM_setup env (AnyBackend.base bk) j),
    countRm_nil_of_safe (SafeM_setup env (AnyBackend.base bk) j)⟩

/-- Witness for the amended C3 at the concrete create-failure environment. -/
theorem C3_amended_no_teardown_witness :
    (build_iso_pipeline createFailEnv fedoraBk true false).1
      = Except.error (UlbError.Command "setup_container" "Podman create failed") ∧
    countStop (build_iso_pipeline createFailEnv fedoraBk true false).2 = 0 ∧
    countRm (build_iso_pipeline createFailEnv fedoraBk true false).2 = 0 :=
  C3_amended_no_teardown_on_provision_failure createFailEnv fedoraBk true false
    (UlbError.Command "setup_container" "Podman create failed") (by decide)

/-- C4: podman_exec runs its command list strictly in order and the first
command with non-zero exit aborts the call: for any list split as
`pre ++ c :: post` where every command of `pre` succeeds and `c` fails,
exactly the commands of `pre` and then `c` are executed (the trace is their
exec events, plus the error log line), the returned error identifies `c`,
and no command of `post` ever runs. -/
theorem C4_fail_fast (env : Env) (container stage : String) (pre : List String)
    (c : String) (post : List String)
    (hpre : ∀ x ∈ pre, env.execRes x = ⟨true, true⟩)
    (hs : (env.execRes c).spawnOk = true) (hf : (env.execRes c).exitOk = false) :
    podman_exec env container (pre ++ c :: post) stage =
      (Except.error (UlbError.Command stage ("Command failed: " ++ c)),
       pre.map (Event.exec container) ++
         [Event.exec container c,
          Event.logErr ("Command failed in " ++ stage ++ ": " ++ c ++ " - stderr: "
            ++ env.execStderrText c)]) :=
  podman_exec_fail_fast env container stage pre c post hpre hs hf

/-- Witness for C4: a 3-command list whose 2nd command fails executes
exactly 2 commands, the error names the 2nd, the 3rd never runs. -/
theorem C4_fail_fast_witness :
    podman_exec execC2FailEnv "c0" (["cmd1"] ++ "cmd2" :: ["cmd3"]) "stage1" =
      (Except.error (UlbError.Command "stage1" ("Command failed: " ++ "cmd2")),
       ["cmd1"].map (Event.exec "c0") ++
         [Event.exec "c0" "cmd2",
          Event.logErr ("Command failed in " ++ "stage1" ++ ": " ++ "cmd2" ++ " - stderr: "
            ++ execC2FailEnv.execStderrText "cmd2")]) :=
  C4_fail_fast execC2FailEnv "c0" "stage1" ["cmd1"] "cmd2" ["cmd3"]
    (by decide) (by decide) (by decide)

/-- C5 counterexample: two runs whose failing command captured different
standard-error text return the very same error value — the Command error
carries only the stage name and the command text, so it cannot carry the
captured stderr excerpt the claim requires (the stderr reaches only the
error! log line). -/
theorem C5_counterexample :
    ¬ stderrEnvA.execStderrText "cmd1" = stderrEnvB.execStderrText "cmd1" ∧
    (podman_exec stderrEnvA "c0" ["cmd1"] "stage1").1
      = (podman_exec stderrEnvB "c0" ["cmd1"] "stage1").1 ∧
    (podman_exec stderrEnvA "c0" ["cmd1"] "stage1").1
      = Except.error (UlbError.Command "stage1" "Command failed: cmd1") := by
  decide

/-- C5 amended: on a remote command's non-zero exit the error value returned
to the caller carries two pieces of data — the stage name and the failing
command text (message "Command failed: <cmd>"); the captured stderr excerpt
appears only in the error! log line emitted just before returning, not in
the error value. -/
theorem C5_amended_error_payload (env : Env) (container stage c : String) (rest : List String)
    (hs : (env.execRes c).spawnOk = true) (hf : (env.execRes c).exitOk = false) :
    (podman_exec env container (c :: rest) stage).1
      = Except.error (UlbError.Command stage ("Command failed: " ++ c)) ∧
    (podman_exec env container (c :: rest) stage).2
      = [Event.exec container c,
         Event.logErr ("Command failed in " ++ stage ++ ": " ++ c ++ " - stderr: "
           ++ env.execStderrText c)] := by
  have h := podman_exec_fail_fast env container stage [] c rest (by simp) hs hf
  exact ⟨congrArg Prod.fst h, congrArg Prod.snd h⟩

/-- Witness for the amended C5 at a concrete failing command. -/
theorem C5_amended_error_payload_witness :
    (podman_exec stderrEnvA "c0" ["cmd1"] "stage1").1
      = Except.error (UlbError.Command "stage1" ("Command failed: " ++ "cmd1")) ∧
    (podman_exec stderrEnvA "c0" ["cmd1"] "stage1").2
      = [Event.exec "c0" "cmd1",
         Event.logErr ("Command failed in " ++ "stage1" ++ ": " ++ "cmd1" ++ " - stderr: "
           ++ stderrEnvA.execStderrText "cmd1")] :=
  C5_amended_error_payload stderrEnvA "c0" "stage1" "cmd1" [] (by decide) (by decide)

/-- C6: whenever the run_scripts stage completes, its command trace is as
follows — if the host scripts directory exists, the `.sh` entries are
processed in lexicographic filename order (the processed order is sorted
under the byte order `fileNameLe` and is a permutation of the directory
entries), and each script contributes, in order, a copy into the sandbox
followed by one remote command that executes the script and then deletes the
remote copy (`bash /tmp/s && rm /tmp/s`) before any command of the next
script; if the directory is absent the stage runs no commands at all. -/
theorem C6_run_scripts_order (env : Env) (self : BaseBackend) (container : String) (j : Bool)
    (u : Unit) (h : (BaseBackend.run_scripts env self container j).1 = Except.ok u) :
    (env.scriptsDirExists = true →
      commandEvents (BaseBackend.run_scripts env self container j).2
        = scriptCmds self.base_dir container (sortStrings env.scriptEntries)) ∧
    (env.scriptsDirExists = false →
      commandEvents (BaseBackend.run_scripts env self container j).2 = []) ∧
    (sortStrings env.scriptEntries).Sorted (fun a b => fileNameLe a b = true) ∧
    (sortStrings env.scriptEntries).Perm env.scriptEntries := by
  have hc := run_scripts_commands env self container j u h
  refine ⟨fun hd => ?_, fun hd => ?_, sortStrings_sorted _, sortStrings_perm _⟩
  · rw [hc, if_pos hd]
  · rw [hc, if_neg (by simp [hd])]

/-- Witness for C6: scripts named b.sh, a.sh, c.sh on the host are executed
in the order a.sh, b.sh, c.sh. -/
theorem C6_run_scripts_order_witness :
    (BaseBackend.run_scripts scriptsEnv fedoraBase "c0" false).1 = Except.ok () ∧
    commandEvents (BaseBackend.run_scripts scriptsEnv fedoraBase "c0" false).2
      = scriptCmds fedoraBase.base_dir "c0" (sortStrings scriptsEnv.scriptEntries) ∧
    sortStrings scriptsEnv.scriptEntries = ["a.sh", "b.sh", "c.sh"] := by
  refine ⟨by decide, ?_, by decide⟩
  exact (C6_run_scripts_order scriptsEnv fedoraBase "c0" false () (by decide)).1 rfl

/-- C7: in structured (JSON) output mode, a completing pipeline run prints,
for every stage — including stages that do no work because their optional
input is absent — exactly two JSON lines, the first with progress 0.0 at
stage entry and the second with progress 1.0 at stage exit; each line is a
single object carrying exactly the stage name and the progress number, and
the whole JSON output is the entry/exit pairs of the stages in order. -/
theorem C7_two_json_lines_per_stage (env : Env) (bk : AnyBackend) (release : Bool) (u : Unit)
    (h : (build_iso_pipeline env bk release true).1 = Except.ok u) :
    jsonLines (build_iso_pipeline env bk release true).2 = stageSeq :=
  pipeline_ok_jsonLines env bk release u h

/-- Witness for C7 at a successful run whose optional inputs are all absent
(so remove_packages, run_scripts, copy_files, install_installer and
install_custom_packages do no work yet still emit both lines). -/
theorem C7_two_json_lines_per_stage_witness :
    (build_iso_pipeline baseEnv fedoraBk false true).1 = Except.ok () ∧
    jsonLines (build_iso_pipeline baseEnv fedoraBk false true).2 = stageSeq :=
  ⟨by decide, C7_two_json_lines_per_stage baseEnv fedoraBk false () (by decide)⟩

/-- C8: for a configuration whose distro is outside {fedora, debian}, whose
image_name is empty, or whose mandatory package-lists file is missing or
empty, the Build path fails with a Validation (configuration) error before
the pipeline starts and its event trace is empty — zero sandbox operations
are attempted, no backend work happens and no podman command runs. -/
theorem C8_validation_gate (env : Env) (config : Config) (release j : Bool)
    (hmeta : env.pkgMetaOk = true)
    (hbad : (¬ config.distro = "fedora" ∧ ¬ config.distro = "debian")
        ∨ config.image_name = "" ∨ env.pkgListExists = false ∨ env.pkgListLen = 0) :
    (∃ m, (mainBuild env config release j).1 = Except.error (UlbError.Validation m)) ∧
    (mainBuild env config release j).2 = [] :=
  mainBuild_validation_err env config release j hmeta hbad

/-- Witness for C8 at the unsupported distro "arch". -/
theorem C8_validation_gate_witness :
    (∃ m, (mainBuild baseEnv archConfig false false).1 = Except.error (UlbError.Validation m)) ∧
    (mainBuild baseEnv archConfig false false).2 = [] :=
  C8_validation_gate baseEnv archConfig false false (by decide)
    (Or.inl ⟨by decide, by decide⟩)

/-- C9: the stages execute in the fixed total order provision
(setup_container), install_packages, remove_packages, run_scripts,
build_rootfs, copy_files, install_installer, install_custom_packages,
create_iso, teardown.  On every run, successful or not, the progress trace
is a prefix of the entry/exit pair sequence of stageNames in that order —
so no stage's entry ever precedes the previous stage's successful exit —
and on a successful run it is exactly that sequence, with the teardown
stop/remove events as the final two events of the run. -/
theorem C9_stage_order (env : Env) (bk : AnyBackend) (release j : Bool) :
    (∃ r, progressEvents (build_iso_pipeline env bk release j).2 ++ r = stageSeq) ∧
    (∀ u, (build_iso_pipeline env bk release j).1 = Except.ok u →
      progressEvents (build_iso_pipeline env bk release j).2 = stageSeq ∧
      ∃ t, (build_iso_pipeline env bk release j).2
          = t ++ [Event.stop (AnyBackend.base bk).container_name,
                  Event.rm (AnyBackend.base bk).container_name]) :=
  ⟨pipeline_progress_initial env bk release j,
   fun u h => pipeline_ok_full env bk release j u h⟩

/-- Witness for C9 at a concrete successful Fedora run. -/
theorem C9_stage_order_witness :
    progressEvents (build_iso_pipeline baseEnv fedoraBk false false).2 = stageSeq ∧
    ∃ t, (build_iso_pipeline baseEnv fedoraBk false false).2
        = t ++ [Event.stop "ulb-fedora-builder", Event.rm "ulb-fedora-builder"] :=
  (C9_stage_order baseEnv fedoraBk false false).2 () (by decide)

/-- C10: every progress event a Build run emits, in either human or
structured mode, carries a fraction that is exactly 0 or exactly 1; no
intermediate fraction is ever emitted by any stage of either distro
backend. -/
theorem C10_fractions_zero_or_one (env : Env) (config : Config) (release j : Bool) (e : Event)
    (he : e ∈ (mainBuild env config release j).2) : Event.goodFraction e :=
  mainBuild_goodFraction env config release j e he

/-- Witness for C10 at a concrete event of a concrete run. -/
theorem C10_fractions_zero_or_one_witness :
    Event.progress "setup_container" 0 true ∈ (mainBuild baseEnv fedoraConfig false true).2 ∧
    Event.goodFraction (Event.progress "setup_container" 0 true) :=
  ⟨by decide,
   C10_fractions_zero_or_one baseEnv fedoraConfig false true
     (Event.progress "setup_container" 0 true) (by decide)⟩
